import Mathlib

/-!
Shallow embedding of src/clustering/kube-resource.py: a module that
reconciles one named kubernetes resource against its live state by
building kubectl argument vectors, probing presence with a get command,
and running at most one mutating action (create, delete, delete then
create, or rolling-update).  External collaborators (the process
executor module.run_command and the JSON decoder json.loads) are
modelled as function-valued fields of the module record.
-/

namespace KubeResource

/-- JSON values, the model of what json.loads returns on the probe
stdout (line 117 of the source). -/
inductive Json where
  | null : Json
  | bool (b : Bool) : Json
  | num (n : Int) : Json
  | str (s : String) : Json
  | arr (items : List Json) : Json
  | obj (fields : List (String × Json)) : Json
  deriving Inhabited

/-- Contiguous-sublist test on character lists, the model of the Python
substring test (needle in haystack) used when the probed value decodes
to a string. -/
def charsContain (needle : List Char) : List Char → Bool
  | [] => needle.isEmpty
  | c :: rest => needle.isPrefixOf (c :: rest) || charsContain needle rest

/-- Python len() on a decoded JSON value; none models the TypeError
raised on values without a length. -/
def pyLen : Json → Option Nat
  | .str s => some s.length
  | .arr items => some items.length
  | .obj fields => some fields.length
  | _ => none

/-- Python membership test (key in value): key lookup on dicts, element
membership on lists, substring test on strings; none models the
TypeError on non-containers.  Models line 119 of the source. -/
def pyContains (j : Json) (key : String) : Option Bool :=
  match j with
  | .obj fields => some (fields.any (fun kv => kv.1 == key))
  | .arr items =>
      some (items.any (fun x => match x with | .str s => s == key | _ => false))
  | .str s => some (charsContain key.data s.data)
  | _ => none

/-- Python value[key] with a string key: dict lookup; none models both
the KeyError on a missing key and the TypeError on non-dicts. -/
def pyIndexStr (j : Json) (key : String) : Option Json :=
  match j with
  | .obj fields => (fields.find? (fun kv => kv.1 == key)).map (fun kv => kv.2)
  | _ => none

/-- Python value[i] with an integer index: list indexing; none models
both the IndexError past the end and the TypeError on non-lists. -/
def pyIndexNat (j : Json) (i : Nat) : Option Json :=
  match j with
  | .arr items => items.get? i
  | _ => none

/-- Unhandled Python exceptions the module can raise. -/
inductive PyError where
  | decodeError
  | runtimeError
  deriving DecidableEq, Repr

/-- Result of module.run_command: exit code (kept optional because the
source guards rc against None on lines 115, 194 and 209), stdout and
stderr. -/
structure ExecResult where
  rc : Option Int
  out : String
  err : String
  deriving DecidableEq, Repr

/-- The AnsibleModule collaborator: the check-mode flag, the kubectl
path resolved by get_bin_path (line 97, required, so the missing-binary
failure happens before any logic modelled here), the process executor
module.run_command, and the JSON decoder json.loads. -/
structure AnsibleModule where
  check_mode : Bool
  bin_path : String
  run_command : List String → ExecResult
  decode : String → Except Unit Json

/-- Source line 96: the command starts with the resolved kubectl path. -/
def get_cmd (module : AnsibleModule) : List String :=
  [module.bin_path]

/-- Source lines 99-104: replication controllers are selected by a
single combined label token, every other type by its bare name. -/
def add_selector (cmd : List String) (resource_type name : String) : List String :=
  if resource_type = "rc" then
    cmd ++ ["-l k8s-app=" ++ name]
  else
    cmd ++ [name]

/-- The argument vector built by is_present, lines 107-113. -/
def probe_cmd (module : AnsibleModule) (resource_type name ns : String) : List String :=
  add_selector (get_cmd module ++ ["get", resource_type]) resource_type name
    ++ ["-o", "json", "--namespace=" ++ ns]

/-- The argument vector built by delete, lines 130-134. -/
def delete_cmd (module : AnsibleModule) (resource_type name ns : String) : List String :=
  add_selector (get_cmd module ++ ["delete", resource_type]) resource_type name
    ++ ["--namespace=" ++ ns]

/-- The argument vector built by create, lines 140-144. -/
def create_cmd (module : AnsibleModule) (src ns : String) : List String :=
  get_cmd module ++ ["create", "-f", src, "--namespace=" ++ ns]

/-- The argument vector built by rolling_update, lines 151-156; its
positional target is the name passed in, which line 148 extracts from
the probe payload. -/
def rolling_update_cmd (module : AnsibleModule) (name src ns : String) : List String :=
  get_cmd module ++ ["rolling-update", name, "-f", src, "--namespace=" ++ ns]

/-- Presence from the decoded probe response, lines 118-120: present is
len(response) != 0, overridden by len(response[items]) != 0 whenever
the response has an items member. -/
def presence_from (response : Json) : Except PyError Bool :=
  match pyLen response with
  | none => .error .runtimeError
  | some n =>
    match pyContains response "items" with
    | none => .error .runtimeError
    | some true =>
      match pyIndexStr response "items" with
      | none => .error .runtimeError
      | some items =>
        match pyLen items with
        | none => .error .runtimeError
        | some k => .ok (k != 0)
    | some false => .ok (n != 0)

/-- Source lines 106-125: run the get command; on exit code exactly 0
decode stdout and compute presence, otherwise report not present with
no payload.  The second component records the commands executed. -/
def is_present (module : AnsibleModule) (resource_type name ns : String) :
    Except PyError (Bool × Option Json) × List (List String) :=
  let cmd := probe_cmd module resource_type name ns
  let r := module.run_command cmd
  let res :=
    if r.rc = some 0 then
      match module.decode r.out with
      | .error _ => .error .decodeError
      | .ok response =>
        match presence_from response with
        | .error e => .error e
        | .ok present => .ok (present, some response)
    else
      .ok (false, none)
  (res, [cmd])

/-- A single quote character, used in the check-mode messages. -/
def sq (s : String) : String :=
  String.singleton (Char.ofNat 39) ++ s ++ String.singleton (Char.ofNat 39)

/-- The check-mode message of delete, line 128. -/
def delete_msg (resource_type name ns : String) : String :=
  "deleting " ++ resource_type ++ " " ++ sq name ++ " in namespace " ++ sq ns

/-- The check-mode message of create, line 138. -/
def create_msg (ns src : String) : String :=
  "creating resource in namespace " ++ sq ns ++ " using " ++ sq src

/-- The check-mode message of rolling_update, line 149. -/
def rolling_update_msg (name ns src : String) : String :=
  "perform rolling update of rc with label " ++ sq name ++ " in namespace "
    ++ sq ns ++ " using " ++ sq src

/-- What a mutating step did: exited early through log_change_and_exit
in check mode, or ran its command. -/
inductive StepOut where
  | sim (msg : String)
  | ran (r : ExecResult)

/-- The observable ways one invocation of main terminates: a normal
exit_json record (lines 212-217), the check-mode exit_json of
log_change_and_exit (lines 159-164), a fail_json (lines 195 and 210),
or an unhandled Python exception. -/
inductive Outcome where
  | ok (changed : Bool) (stdout stderr : String)
  | simulated (changed : Bool) (msg : String)
  | failed (name msg : String) (rc : Int)
  | raised (e : PyError)
  deriving DecidableEq, Repr

/-- Source lines 159-164: in check mode, exit reporting changed true
and the descriptive message. -/
def log_change_and_exit (msg : String) : Outcome :=
  Outcome.simulated true msg

/-- Source lines 127-135: delete exits through log_change_and_exit in
check mode, otherwise runs the delete command.  The second component
records the commands executed. -/
def delete (module : AnsibleModule) (resource_type name ns : String) :
    StepOut × List (List String) :=
  if module.check_mode then
    (.sim (delete_msg resource_type name ns), [])
  else
    let cmd := delete_cmd module resource_type name ns
    (.ran (module.run_command cmd), [cmd])

/-- Source lines 137-145: create exits through log_change_and_exit in
check mode, otherwise runs the create command. -/
def create (module : AnsibleModule) (src ns : String) :
    StepOut × List (List String) :=
  if module.check_mode then
    (.sim (create_msg ns src), [])
  else
    let cmd := create_cmd module src ns
    (.ran (module.run_command cmd), [cmd])

/-- Source line 148: the live name data[items][0][metadata][name]
extracted from the probe payload; none models the unhandled
TypeError/KeyError/IndexError when the payload (or a None payload)
does not have that shape, and a non-string name value is likewise
modelled as a runtime error. -/
def extract_live_name (data : Option Json) : Option String :=
  match data with
  | none => none
  | some j =>
    match pyIndexStr j "items" with
    | none => none
    | some items =>
      match pyIndexNat items 0 with
      | none => none
      | some first =>
        match pyIndexStr first "metadata" with
        | none => none
        | some md =>
          match pyIndexStr md "name" with
          | some (.str s) => some s
          | _ => none

/-- Source lines 147-157: rolling_update extracts the live name from
the payload before anything else (line 148 precedes the check-mode
test on line 149), then either exits through log_change_and_exit in
check mode or runs the rolling-update command. -/
def rolling_update (module : AnsibleModule) (src : String) (data : Option Json)
    (ns : String) : Except PyError StepOut × List (List String) :=
  match extract_live_name data with
  | none => (.error .runtimeError, [])
  | some name =>
    if module.check_mode then
      (.ok (.sim (rolling_update_msg name ns src)), [])
    else
      let cmd := rolling_update_cmd module name src ns
      (.ok (.ran (module.run_command cmd)), [cmd])

/-- The failure test (rc is not None and rc != 0) of lines 194 and 209,
returning the failing exit code when it holds. -/
def failing_rc : Option Int → Option Int
  | some c => if c != 0 then some c else none
  | none => none

/-- The common tail of main, lines 209-217: fail_json with the
command stderr and exit code when the failure test holds, otherwise
exit_json with the changed flag and the command output. -/
def exit_with (name : String) (changed : Bool) (r : ExecResult) : Outcome :=
  match failing_rc r.rc with
  | some c => .failed name r.err c
  | none => .ok changed r.out r.err

/-- How main terminates after one mutating step: a check-mode exit, or
the common fail/exit tail applied to the run result. -/
def step_exit (name : String) (changed : Bool) : StepOut → Outcome
  | .sim msg => log_change_and_exit msg
  | .ran r => exit_with name changed r

/-- The five reconciliation actions. -/
inductive Action where
  | NoOp
  | Create
  | Delete
  | DeleteThenCreate
  | RollingUpdate
  deriving DecidableEq, Repr

/-- The reconciliation decision of main (lines 187-207) as a pure
table: the branch conditions of the if/elif chain, in source order. -/
def plan (state : String) (present : Bool) : Action :=
  if state = "created" ∧ present = false then .Create
  else if state = "deleted" ∧ present = true then .Delete
  else if state = "recreated" then
    (if present then .DeleteThenCreate else .Create)
  else if state = "updated" then
    (if present then .RollingUpdate else .Create)
  else .NoOp

/-- The validated invocation parameters of main, lines 178-182. -/
structure Params where
  src : String
  name : String
  ns : String
  resource_type : String
  state : String
  deriving DecidableEq, Repr

/-- Source lines 184-217: probe presence, dispatch on (state, present)
through the if/elif chain, run at most one mutating step (two for
recreated when present), then fail or exit.  The second component
records every command passed to module.run_command, in order. -/
def main (module : AnsibleModule) (p : Params) : Outcome × List (List String) :=
  let pr := is_present module p.resource_type p.name p.ns
  let cs := pr.2
  match pr.1 with
  | .error e => (.raised e, cs)
  | .ok (present, data) =>
    if p.state = "created" ∧ present = false then
      let s := create module p.src p.ns
      (step_exit p.name true s.1, cs ++ s.2)
    else if p.state = "deleted" ∧ present = true then
      let d := delete module p.resource_type p.name p.ns
      (step_exit p.name true d.1, cs ++ d.2)
    else if p.state = "recreated" then
      if present then
        let d := delete module p.resource_type p.name p.ns
        match d.1 with
        | .sim msg => (log_change_and_exit msg, cs ++ d.2)
        | .ran r =>
          match failing_rc r.rc with
          | some c => (.failed p.name r.err c, cs ++ d.2)
          | none =>
            let s := create module p.src p.ns
            (step_exit p.name true s.1, cs ++ d.2 ++ s.2)
      else
        let s := create module p.src p.ns
        (step_exit p.name true s.1, cs ++ s.2)
    else if p.state = "updated" then
      if present then
        match rolling_update module p.src data p.ns with
        | (.error e, cs2) => (.raised e, cs ++ cs2)
        | (.ok s, cs2) => (step_exit p.name true s, cs ++ cs2)
      else
        let s := create module p.src p.ns
        (step_exit p.name true s.1, cs ++ s.2)
    else
      (exit_with p.name false { rc := some 0, out := "", err := "" }, cs)

/-- The raw invocation inputs before AnsibleModule validates them
against the argument spec. -/
structure RawArgs where
  src : Option String
  name : Option String
  ns : Option String
  resource_type : Option String
  state : Option String

/-- The type choices of the argument spec, line 173. -/
def type_choices : List String :=
  ["rc", "svc", "secret", "endpoints", "namespace"]

/-- The state choices of the argument spec, line 174. -/
def state_choices : List String :=
  ["created", "deleted", "recreated", "updated"]

/-- The argument spec of main, lines 167-176: src, name and type are
required (src on line 170 carries required=True), namespace defaults
to default, state is restricted to its choices and defaults to
created. -/
def validate_params (a : RawArgs) : Except String Params :=
  match a.src with
  | none => .error "missing required arguments: src"
  | some src =>
    match a.name with
    | none => .error "missing required arguments: name"
    | some name =>
      match a.resource_type with
      | none => .error "missing required arguments: type"
      | some t =>
        if t ∈ type_choices then
          let st := a.state.getD "created"
          if st ∈ state_choices then
            .ok { src := src, name := name, ns := a.ns.getD "default",
                  resource_type := t, state := st }
          else .error "value of state must be one of the choices"
        else .error "value of type must be one of the choices"

/-- The DOCUMENTATION block of the module (lines 32-35) declares the
src option with required: false, and the EXAMPLES block (line 71)
shows a state=deleted invocation without src. -/
def doc_src_required : Bool := false

/-! Concrete collaborator instances used by the closed statements. -/

/-- A state=deleted invocation that supplies no src. -/
def c8_args : RawArgs :=
  { src := none, name := some "my-service", ns := none,
    resource_type := some "svc", state := some "deleted" }

/-- A module whose probe finds an items member holding an empty list. -/
def c4_module : AnsibleModule where
  check_mode := false
  bin_path := "kubectl"
  run_command := fun _ => { rc := some 0, out := "items-empty", err := "" }
  decode := fun _ => .ok (Json.obj [("items", Json.arr [])])

/-- A module whose probe finds an items member holding one element. -/
def c4b_module : AnsibleModule where
  check_mode := false
  bin_path := "kubectl"
  run_command := fun _ => { rc := some 0, out := "one-item", err := "" }
  decode := fun _ => .ok (Json.obj [("items", Json.arr [Json.obj []])])

/-- A module whose probe command exits with code 1. -/
def c5_module : AnsibleModule where
  check_mode := false
  bin_path := "kubectl"
  run_command := fun _ => { rc := some 1, out := "garbage", err := "e" }
  decode := fun _ => .error ()

/-- A module used only to build command vectors. -/
def plain_module : AnsibleModule where
  check_mode := false
  bin_path := "kubectl"
  run_command := fun _ => { rc := some 0, out := "", err := "" }
  decode := fun _ => .error ()

/-- A check-mode module whose probe decodes to a scalar service object
without an items member. -/
def c7_module : AnsibleModule where
  check_mode := true
  bin_path := "kubectl"
  run_command := fun _ => { rc := some 0, out := "svc-json", err := "" }
  decode := fun _ => .ok (Json.obj [("kind", Json.str "Service")])

/-- A state=updated invocation on a service. -/
def c7_params : Params where
  src := "/m.yml"
  name := "my-service"
  ns := "default"
  resource_type := "svc"
  state := "updated"

/-- A check-mode module whose probe decodes to an empty object, so the
resource counts as absent. -/
def sim_module : AnsibleModule where
  check_mode := true
  bin_path := "kubectl"
  run_command := fun _ => { rc := some 0, out := "", err := "" }
  decode := fun _ => .ok (Json.obj [])

/-- A state=created invocation on a service. -/
def sim_params : Params where
  src := "/m.yml"
  name := "my-service"
  ns := "default"
  resource_type := "svc"
  state := "created"

/-- A module whose delete command fails with exit code 1 and stderr
boom, while every other command (the probe) succeeds; the probe
decodes to a non-empty scalar object, so the resource is present. -/
def c2_module : AnsibleModule where
  check_mode := false
  bin_path := "kubectl"
  run_command := fun cmd =>
    if cmd.contains "delete" then { rc := some 1, out := "", err := "boom" }
    else { rc := some 0, out := "x", err := "" }
  decode := fun _ => .ok (Json.obj [("kind", Json.str "Service")])

/-- A module identical to c2_module except that delete succeeds. -/
def c2b_module : AnsibleModule where
  check_mode := false
  bin_path := "kubectl"
  run_command := fun _ => { rc := some 0, out := "x", err := "" }
  decode := fun _ => .ok (Json.obj [("kind", Json.str "Service")])

/-- A state=recreated invocation on a service. -/
def c2_params : Params where
  src := "/m.yml"
  name := "my-service"
  ns := "default"
  resource_type := "svc"
  state := "recreated"

/-- A real-mode module whose probe finds the resource present. -/
def c3_module : AnsibleModule where
  check_mode := false
  bin_path := "kubectl"
  run_command := fun _ => { rc := some 0, out := "x", err := "" }
  decode := fun _ => .ok (Json.obj [("kind", Json.str "Service")])

/-- A state=created invocation on a service. -/
def c3_params : Params where
  src := "/m.yml"
  name := "my-service"
  ns := "default"
  resource_type := "svc"
  state := "created"

/-- A probe payload whose single item carries the live name my-app-v2. -/
def c6_payload : Json :=
  Json.obj [("items",
    Json.arr [Json.obj [("metadata", Json.obj [("name", Json.str "my-app-v2")])]])]

/-- A real-mode module whose probe decodes to c6_payload. -/
def c6_module : AnsibleModule where
  check_mode := false
  bin_path := "kubectl"
  run_command := fun _ => { rc := some 0, out := "rc-json", err := "" }
  decode := fun _ => .ok c6_payload

/-- A state=updated invocation on a replication controller whose input
name my-app differs from the live name my-app-v2. -/
def c6_params : Params where
  src := "/m.yml"
  name := "my-app"
  ns := "default"
  resource_type := "rc"
  state := "updated"

/-! The claims. -/

/-- C1: the reconciliation decision maps desired state and presence
exactly per the eight-row table, for every combination of the four
desired states and the presence boolean. -/
theorem plan_decision_table :
    plan "created" false = Action.Create ∧ plan "created" true = Action.NoOp ∧
    plan "deleted" true = Action.Delete ∧ plan "deleted" false = Action.NoOp ∧
    plan "recreated" true = Action.DeleteThenCreate ∧
    plan "recreated" false = Action.Create ∧
    plan "updated" true = Action.RollingUpdate ∧
    plan "updated" false = Action.Create :=
  ⟨rfl, rfl, rfl, rfl, rfl, rfl, rfl, rfl⟩

/-- C8 (code bug): the claim and the DOCUMENTATION block mark src as
not required, and the EXAMPLES block shows a state=deleted invocation
without src, but the argument spec on line 170 carries required=True,
so that invocation is rejected for the missing manifest path. -/
theorem src_required_despite_docs :
    validate_params c8_args = .error "missing required arguments: src" ∧
    doc_src_required = false :=
  ⟨rfl, rfl⟩

/-- C4 counterexample: presence is not computed per resource type.  For
the non-rc type svc, a decoded response holding an items member with an
empty list is non-empty (its length is 1), yet the probe reports the
resource not present, because lines 119-120 branch on the items member
and never on the type. -/
theorem svc_presence_not_by_nonemptiness :
    pyLen (Json.obj [("items", Json.arr [])]) = some 1 ∧
    (is_present c4_module "svc" "my-service" "default").1
      = .ok (false, some (Json.obj [("items", Json.arr [])])) :=
  ⟨rfl, rfl⟩

/-- C7 counterexample: in check mode, a state=updated invocation on a
present service whose payload has no items member raises an unhandled
error (line 148 extracts the live name before the check-mode test on
line 149), so a non-NoOp plan does not always yield a changed=true
report with a message. -/
theorem check_mode_updated_raises :
    plan "updated" true = Action.RollingUpdate ∧
    (main c7_module c7_params).1 = Outcome.raised PyError.runtimeError :=
  ⟨rfl, rfl⟩

/-- C9 counterexample: the create vector selects no resource at all.
Built for a svc named my-service, it contains neither the bare name
token the claim requires for non-rc types nor any label token; the
target comes solely from the manifest file. -/
theorem create_cmd_has_no_selector :
    create_cmd plain_module "/m.yml" "default"
      = ["kubectl", "create", "-f", "/m.yml", "--namespace=default"] ∧
    (create_cmd plain_module "/m.yml" "default").contains "my-service" = false ∧
    (create_cmd plain_module "/m.yml" "default").contains "-l k8s-app=my-service"
      = false :=
  ⟨rfl, rfl, rfl⟩

/-- C5: whenever the underlying get command exits with a code other
than exactly 0 (a non-zero code or a missing one), the probe reports
present false with no payload, whatever stdout holds, and returns
normally rather than surfacing an error. -/
theorem probe_nonzero_exit_means_absent (module : AnsibleModule)
    (t n ns : String)
    (h : (module.run_command (probe_cmd module t n ns)).rc ≠ some 0) :
    (is_present module t n ns).1 = .ok (false, none) := by
  simp [is_present, h]

/-- Witness for C5 at a module whose probe exits with code 1. -/
theorem probe_nonzero_exit_means_absent_witness :
    (is_present c5_module "svc" "my-service" "default").1 = .ok (false, none) :=
  probe_nonzero_exit_means_absent c5_module "svc" "my-service" "default"
    (by decide)

/-- Helper: a successful find? makes any true. -/
theorem find_some_any {α : Type} {p : α → Bool} {l : List α} {x : α}
    (h : l.find? p = some x) : l.any p = true :=
  List.any_eq_true.mpr ⟨x, List.mem_of_find?_eq_some h, List.find?_some h⟩

/-- Helper: pyLen on an object. -/
theorem pyLen_obj (fields : List (String × Json)) :
    pyLen (Json.obj fields) = some fields.length := rfl

/-- Helper: pyContains on an object. -/
theorem pyContains_obj (fields : List (String × Json)) (key : String) :
    pyContains (Json.obj fields) key
      = some (fields.any (fun kv => kv.1 == key)) := rfl

/-- Helper: pyIndexStr on an object. -/
theorem pyIndexStr_obj (fields : List (String × Json)) (key : String) :
    pyIndexStr (Json.obj fields) key
      = (fields.find? (fun kv => kv.1 == key)).map (fun kv => kv.2) := rfl

/-- C4 amended: presence is computed from the shape of the decoded
payload, not from the resource type.  When the probe command exits 0
and its stdout decodes to response: if response has an items member,
present is exactly (length of that member is non-zero); if it has no
items member, present is exactly (length of response is non-zero).
In both cases the payload returned is the decoded response. -/
theorem presence_by_payload_shape (module : AnsibleModule) (t n ns : String)
    (response : Json)
    (h0 : (module.run_command (probe_cmd module t n ns)).rc = some 0)
    (h1 : module.decode (module.run_command (probe_cmd module t n ns)).out
      = .ok response) :
    (∀ items k, pyIndexStr response "items" = some items → pyLen items = some k →
      (is_present module t n ns).1 = .ok (k != 0, some response)) ∧
    (∀ nn, pyContains response "items" = some false → pyLen response = some nn →
      (is_present module t n ns).1 = .ok (nn != 0, some response)) := by
  have hbase : (is_present module t n ns).1 =
      (match presence_from response with
       | .error e => .error e
       | .ok present => .ok (present, some response)) := by
    simp [is_present, h0, h1]
  constructor
  · intro items k hitems hk
    rw [hbase]
    cases response with
    | null => simp [pyIndexStr] at hitems
    | bool b => simp [pyIndexStr] at hitems
    | num v => simp [pyIndexStr] at hitems
    | str s => simp [pyIndexStr] at hitems
    | arr ys => simp [pyIndexStr] at hitems
    | obj fields =>
      cases hff : fields.find? (fun kv => kv.1 == "items") with
      | none => simp [pyIndexStr, hff] at hitems
      | some kv =>
        have hkv : kv.2 = items := by simpa [pyIndexStr, hff] using hitems
        have hany := find_some_any hff
        simp [presence_from, pyLen_obj, pyContains_obj, hany, pyIndexStr_obj,
          hff, hkv, hk]
  · intro nn hcont hlen
    rw [hbase]
    simp [presence_from, hlen, hcont]

/-- Witness for the amended C4: a probe that decodes to an object whose
items member holds one element reports the resource present. -/
theorem presence_by_payload_shape_witness :
    (is_present c4b_module "rc" "my-app" "default").1
      = .ok (true, some (Json.obj [("items", Json.arr [Json.obj []])])) :=
  (presence_by_payload_shape c4b_module "rc" "my-app" "default"
      (Json.obj [("items", Json.arr [Json.obj []])]) rfl rfl).1
    (Json.arr [Json.obj []]) 1 rfl rfl

/-- C2: for state=recreated with the resource present (real mode), the
delete command runs first; if its exit code is non-zero main fails with
the delete stderr and exit code and the create command is never issued;
the create command is issued after a delete that exits 0, and directly
when nothing was present to delete. -/
theorem recreated_delete_failure (module : AnsibleModule) (p : Params)
    (present : Bool) (data : Option Json) (c : Int) (dout derr : String)
    (hcm : module.check_mode = false)
    (hst : p.state = "recreated")
    (hprobe : (is_present module p.resource_type p.name p.ns).1
      = .ok (present, data))
    (hdel : module.run_command (delete_cmd module p.resource_type p.name p.ns)
      = { rc := some c, out := dout, err := derr }) :
    (present = true → c ≠ 0 →
      (main module p).1 = .failed p.name derr c ∧
      (main module p).2 = [probe_cmd module p.resource_type p.name p.ns,
        delete_cmd module p.resource_type p.name p.ns]) ∧
    (present = true → c = 0 →
      (main module p).2 = [probe_cmd module p.resource_type p.name p.ns,
        delete_cmd module p.resource_type p.name p.ns,
        create_cmd module p.src p.ns]) ∧
    (present = false →
      (main module p).2 = [probe_cmd module p.resource_type p.name p.ns,
        create_cmd module p.src p.ns]) := by
  have hfull : is_present module p.resource_type p.name p.ns
      = (.ok (present, data), [probe_cmd module p.resource_type p.name p.ns]) :=
    Prod.ext_iff.mpr ⟨hprobe, rfl⟩
  refine ⟨?_, ?_, ?_⟩
  · intro hp hc
    subst hp
    constructor
    · simp only [main, hfull, hst]
      simp [delete, hcm, hdel, failing_rc, hc]
    · simp only [main, hfull, hst]
      simp [delete, hcm, hdel, failing_rc, hc, create, create_cmd]
  · intro hp hc
    subst hp hc
    simp only [main, hfull, hst]
    simp [delete, hcm, hdel, failing_rc, create, step_exit, exit_with]
  · intro hp
    subst hp
    simp only [main, hfull, hst]
    simp [create, hcm, step_exit, exit_with]

/-- Witness for C2 at a module whose delete command fails with exit
code 1 and stderr boom while the probe finds the resource present. -/
theorem recreated_delete_failure_witness :
    (main c2_module c2_params).1 = Outcome.failed "my-service" "boom" 1 :=
  ((recreated_delete_failure c2_module c2_params true
      (some (Json.obj [("kind", Json.str "Service")])) 1 "" "boom"
      rfl rfl rfl rfl).1 rfl (by decide)).1

/-- Helper: a step that reaches exit_json keeps the changed flag the
dispatch chose. -/
theorem step_exit_ok_changed {name : String} {b : Bool} {s : StepOut} {ch : Bool}
    {so se : String} (h : step_exit name b s = .ok ch so se) : ch = b := by
  cases s with
  | sim msg => simp [step_exit, log_change_and_exit] at h
  | ran r =>
    simp only [step_exit, exit_with] at h
    cases hf : failing_rc r.rc with
    | some c => rw [hf] at h; simp at h
    | none => rw [hf] at h; simp at h; exact h.1.symm

/-- C3: every invocation that exits with a normal success record
reports changed = false exactly when the chosen action is NoOp; every
other action reports changed = true, whatever the executed command
printed. -/
theorem changed_iff_not_noop (module : AnsibleModule) (p : Params)
    (present : Bool) (data : Option Json) (ch : Bool) (so se : String)
    (hprobe : (is_present module p.resource_type p.name p.ns).1
      = .ok (present, data))
    (hmain : (main module p).1 = .ok ch so se) :
    (ch = false ↔ plan p.state present = Action.NoOp) := by
  have hfull : is_present module p.resource_type p.name p.ns
      = (.ok (present, data), [probe_cmd module p.resource_type p.name p.ns]) :=
    Prod.ext_iff.mpr ⟨hprobe, rfl⟩
  simp only [main, hfull] at hmain
  unfold plan
  by_cases h1 : p.state = "created" ∧ present = false
  · simp only [if_pos h1] at hmain ⊢
    have := step_exit_ok_changed hmain
    subst this
    simp
  · simp only [if_neg h1] at hmain ⊢
    by_cases h2 : p.state = "deleted" ∧ present = true
    · simp only [if_pos h2] at hmain ⊢
      have := step_exit_ok_changed hmain
      subst this
      simp
    · simp only [if_neg h2] at hmain ⊢
      by_cases h3 : p.state = "recreated"
      · simp only [if_pos h3] at hmain ⊢
        cases present with
        | true =>
          simp only [if_pos rfl] at hmain ⊢
          cases hd : (delete module p.resource_type p.name p.ns).1 with
          | sim msg =>
            rw [hd] at hmain
            simp [log_change_and_exit] at hmain
          | ran r =>
            rw [hd] at hmain
            simp only [] at hmain
            cases hf : failing_rc r.rc with
            | some c => rw [hf] at hmain; simp at hmain
            | none =>
              rw [hf] at hmain
              simp only [] at hmain
              have := step_exit_ok_changed hmain
              subst this
              simp
        | false =>
          simp only [Bool.false_eq_true, if_neg] at hmain ⊢
          have := step_exit_ok_changed hmain
          subst this
          simp
      · simp only [if_neg h3] at hmain ⊢
        by_cases h4 : p.state = "updated"
        · simp only [if_pos h4] at hmain ⊢
          cases present with
          | true =>
            simp only [if_pos rfl] at hmain ⊢
            cases hr : rolling_update module p.src data p.ns with
            | mk a cs2 =>
              rw [hr] at hmain
              cases a with
              | error e => simp at hmain
              | ok s =>
                simp only [] at hmain
                have := step_exit_ok_changed hmain
                subst this
                simp
          | false =>
            simp only [Bool.false_eq_true, if_neg] at hmain ⊢
            have := step_exit_ok_changed hmain
            subst this
            simp
        · simp only [if_neg h4] at hmain ⊢
          simp [exit_with, failing_rc] at hmain
          simp [hmain.1]

/-- Witness for C3 at a state=created invocation on a present resource:
the NoOp row reports changed = false. -/
theorem changed_iff_not_noop_witness :
    (false = false ↔ plan "created" true = Action.NoOp) :=
  changed_iff_not_noop c3_module c3_params true
    (some (Json.obj [("kind", Json.str "Service")])) false "" "" rfl rfl

/-- C6: for state=updated with the resource present (real mode), the
commands executed are the probe followed by the rolling-update vector
whose positional target (token at index 2) is the name extracted from
the probe payload, not the input name parameter. -/
theorem rolling_update_targets_live_name (module : AnsibleModule) (p : Params)
    (data : Option Json) (nm : String)
    (hcm : module.check_mode = false)
    (hst : p.state = "updated")
    (hprobe : (is_present module p.resource_type p.name p.ns).1 = .ok (true, data))
    (hname : extract_live_name data = some nm) :
    (main module p).2 = [probe_cmd module p.resource_type p.name p.ns,
        rolling_update_cmd module nm p.src p.ns] ∧
    (rolling_update_cmd module nm p.src p.ns).get? 2 = some nm := by
  have hfull : is_present module p.resource_type p.name p.ns
      = (.ok (true, data), [probe_cmd module p.resource_type p.name p.ns]) :=
    Prod.ext_iff.mpr ⟨hprobe, rfl⟩
  constructor
  · simp only [main, hfull, hst]
    simp [rolling_update, hname, hcm]
  · rfl

/-- Witness for C6 at the spec scenario: input name my-app, live name
my-app-v2; the rolling-update vector targets my-app-v2. -/
theorem rolling_update_targets_live_name_witness :
    (main c6_module c6_params).2
      = [probe_cmd c6_module "rc" "my-app" "default",
         rolling_update_cmd c6_module "my-app-v2" "/m.yml" "default"] ∧
    (rolling_update_cmd c6_module "my-app-v2" "/m.yml" "default").get? 2
      = some "my-app-v2" :=
  rolling_update_targets_live_name c6_module c6_params (some c6_payload)
    "my-app-v2" rfl rfl rfl rfl

/-- Helper: when the decision is NoOp, every branch condition of the
if/elif chain of main is false. -/
theorem plan_noop_conditions {state : String} {present : Bool}
    (h : plan state present = Action.NoOp) :
    ¬(state = "created" ∧ present = false) ∧
    ¬(state = "deleted" ∧ present = true) ∧
    state ≠ "recreated" ∧ state ≠ "updated" := by
  unfold plan at h
  split_ifs at h
  all_goals simp_all

/-- C7 amended: in check mode the only command ever executed is the
(non-mutating) probe; a NoOp plan is never intercepted and reports
changed = false with no message; every other plan reports changed =
true with a descriptive message, except that a RollingUpdate plan whose
payload lacks the live-name shape raises an unhandled error before
reaching the interception point. -/
theorem check_mode_behavior (module : AnsibleModule) (p : Params)
    (hcm : module.check_mode = true) :
    (main module p).2 = [probe_cmd module p.resource_type p.name p.ns] ∧
    (∀ present data,
      (is_present module p.resource_type p.name p.ns).1 = .ok (present, data) →
      (plan p.state present = Action.NoOp → (main module p).1 = .ok false "" "") ∧
      (plan p.state present ≠ Action.NoOp →
        (∃ msg, (main module p).1 = Outcome.simulated true msg) ∨
        (plan p.state present = Action.RollingUpdate ∧
          extract_live_name data = none ∧
          (main module p).1 = Outcome.raised PyError.runtimeError))) := by
  constructor
  · cases hpr : (is_present module p.resource_type p.name p.ns).1 with
    | error e =>
      have hfull : is_present module p.resource_type p.name p.ns
          = (.error e, [probe_cmd module p.resource_type p.name p.ns]) :=
        Prod.ext_iff.mpr ⟨hpr, rfl⟩
      simp [main, hfull]
    | ok pd =>
      obtain ⟨present, data⟩ := pd
      have hfull : is_present module p.resource_type p.name p.ns
          = (.ok (present, data), [probe_cmd module p.resource_type p.name p.ns]) :=
        Prod.ext_iff.mpr ⟨hpr, rfl⟩
      cases hext : extract_live_name data with
      | none =>
        simp only [main, hfull, create, delete, rolling_update, hcm, hext, if_true]
        split_ifs <;> simp
      | some nm =>
        simp only [main, hfull, create, delete, rolling_update, hcm, hext, if_true]
        split_ifs <;> simp
  · intro present data hprobe
    have hfull : is_present module p.resource_type p.name p.ns
        = (.ok (present, data), [probe_cmd module p.resource_type p.name p.ns]) :=
      Prod.ext_iff.mpr ⟨hprobe, rfl⟩
    constructor
    · intro hplan
      have hc := plan_noop_conditions hplan
      simp only [main, hfull, if_neg hc.1, if_neg hc.2.1, if_neg hc.2.2.1,
        if_neg hc.2.2.2]
      simp [exit_with, failing_rc]
    · intro hplan
      by_cases h1 : p.state = "created" ∧ present = false
      · refine Or.inl ⟨create_msg p.ns p.src, ?_⟩
        simp [main, hfull, if_pos h1, create, hcm, step_exit, log_change_and_exit]
      · by_cases h2 : p.state = "deleted" ∧ present = true
        · refine Or.inl ⟨delete_msg p.resource_type p.name p.ns, ?_⟩
          simp [main, hfull, if_neg h1, if_pos h2, delete, hcm, step_exit,
            log_change_and_exit]
        · by_cases h3 : p.state = "recreated"
          · cases present with
            | true =>
              have h2x : p.state ≠ "deleted" := fun h => h2 ⟨h, rfl⟩
              refine Or.inl ⟨delete_msg p.resource_type p.name p.ns, ?_⟩
              simp [main, hfull, if_neg h1, h2x, if_pos h3, delete, hcm,
                log_change_and_exit]
            | false =>
              refine Or.inl ⟨create_msg p.ns p.src, ?_⟩
              simp [main, hfull, if_neg h1, if_neg h2, if_pos h3, create, hcm,
                step_exit, log_change_and_exit]
          · by_cases h4 : p.state = "updated"
            · cases present with
              | true =>
                have h2x : p.state ≠ "deleted" := fun h => h2 ⟨h, rfl⟩
                cases hext : extract_live_name data with
                | none =>
                  refine Or.inr ⟨?_, rfl, ?_⟩
                  · unfold plan
                    rw [if_neg h1, if_neg h2, if_neg h3, if_pos h4]
                    simp
                  · simp [main, hfull, if_neg h1, h2x, if_neg h3,
                      if_pos h4, rolling_update, hext]
                | some nm =>
                  refine Or.inl ⟨rolling_update_msg nm p.ns p.src, ?_⟩
                  simp [main, hfull, if_neg h1, h2x, if_neg h3, if_pos h4,
                    rolling_update, hext, hcm, step_exit, log_change_and_exit]
              | false =>
                refine Or.inl ⟨create_msg p.ns p.src, ?_⟩
                simp [main, hfull, if_neg h1, if_neg h2, if_neg h3, if_pos h4,
                  create, hcm, step_exit, log_change_and_exit]
            · exfalso
              apply hplan
              unfold plan
              rw [if_neg h1, if_neg h2, if_neg h3, if_neg h4]

/-- Witness for the amended C7 at a check-mode state=created invocation
on an absent resource: only the probe runs, and the non-NoOp plan is
reported through a simulated changed=true message. -/
theorem check_mode_behavior_witness :
    (main sim_module sim_params).2
      = [probe_cmd sim_module "svc" "my-service" "default"] ∧
    ((∃ msg, (main sim_module sim_params).1 = Outcome.simulated true msg) ∨
     (plan "created" false = Action.RollingUpdate ∧
      extract_live_name (some (Json.obj [])) = none ∧
      (main sim_module sim_params).1 = Outcome.raised PyError.runtimeError)) :=
  ⟨(check_mode_behavior sim_module sim_params rfl).1,
   ((check_mode_behavior sim_module sim_params rfl).2 false (some (Json.obj []))
      rfl).2 (by decide)⟩

/-- C9 amended: the get and delete vectors select the resource per type
(the combined label token for rc, the bare name for every other type),
create carries no selector and rolling-update targets the extracted
live name positionally; every vector ends with the namespace flag, and
create and rolling-update place -f with the manifest path immediately
before it. -/
theorem command_vectors_shape (module : AnsibleModule) (t n ns src nm : String) :
    (probe_cmd module t n ns).getLast? = some ("--namespace=" ++ ns) ∧
    (delete_cmd module t n ns).getLast? = some ("--namespace=" ++ ns) ∧
    (create_cmd module src ns).getLast? = some ("--namespace=" ++ ns) ∧
    (rolling_update_cmd module nm src ns).getLast? = some ("--namespace=" ++ ns) ∧
    (t = "rc" →
      probe_cmd module t n ns
        = [module.bin_path, "get", t, "-l k8s-app=" ++ n, "-o", "json",
           "--namespace=" ++ ns] ∧
      delete_cmd module t n ns
        = [module.bin_path, "delete", t, "-l k8s-app=" ++ n,
           "--namespace=" ++ ns]) ∧
    (t ≠ "rc" →
      probe_cmd module t n ns
        = [module.bin_path, "get", t, n, "-o", "json", "--namespace=" ++ ns] ∧
      delete_cmd module t n ns
        = [module.bin_path, "delete", t, n, "--namespace=" ++ ns]) ∧
    create_cmd module src ns
      = [module.bin_path, "create", "-f", src, "--namespace=" ++ ns] ∧
    rolling_update_cmd module nm src ns
      = [module.bin_path, "rolling-update", nm, "-f", src, "--namespace=" ++ ns] := by
  by_cases h : t = "rc"
  · have hp : probe_cmd module t n ns
        = [module.bin_path, "get", t, "-l k8s-app=" ++ n, "-o", "json",
           "--namespace=" ++ ns] := by
      simp [probe_cmd, get_cmd, add_selector, h]
    have hd : delete_cmd module t n ns
        = [module.bin_path, "delete", t, "-l k8s-app=" ++ n,
           "--namespace=" ++ ns] := by
      simp [delete_cmd, get_cmd, add_selector, h]
    refine ⟨?_, ?_, rfl, rfl, fun _ => ⟨hp, hd⟩, fun hn => absurd h hn, rfl, rfl⟩
    · rw [hp]; rfl
    · rw [hd]; rfl
  · have hp : probe_cmd module t n ns
        = [module.bin_path, "get", t, n, "-o", "json", "--namespace=" ++ ns] := by
      simp [probe_cmd, get_cmd, add_selector, h]
    have hd : delete_cmd module t n ns
        = [module.bin_path, "delete", t, n, "--namespace=" ++ ns] := by
      simp [delete_cmd, get_cmd, add_selector, h]
    refine ⟨?_, ?_, rfl, rfl, fun hrc => absurd hrc h, fun _ => ⟨hp, hd⟩, rfl, rfl⟩
    · rw [hp]; rfl
    · rw [hd]; rfl

/-- Witness for the amended C9 at concrete rc inputs. -/
theorem command_vectors_shape_witness :
    probe_cmd plain_module "rc" "my-app" "default"
      = ["kubectl", "get", "rc", "-l k8s-app=my-app", "-o", "json",
         "--namespace=default"] ∧
    (create_cmd plain_module "/m.yml" "default").getLast?
      = some "--namespace=default" :=
  ⟨((command_vectors_shape plain_module "rc" "my-app" "default" "/m.yml"
      "x").2.2.2.2.1 rfl).1,
   (command_vectors_shape plain_module "rc" "my-app" "default" "/m.yml"
      "x").2.2.1⟩

/-- C10: whenever the probe reports present = true with a payload that
has an items member holding a list, that list is non-empty, so the
index-0 access of the rolling-update step succeeds; and a present
payload with no items member makes the live-name extraction an
unhandled error. -/
theorem present_items_nonempty (module : AnsibleModule) (t n ns : String)
    (response : Json)
    (hprobe : (is_present module t n ns).1 = .ok (true, some response)) :
    (∀ xs, pyIndexStr response "items" = some (Json.arr xs) →
      xs ≠ [] ∧ pyIndexNat (Json.arr xs) 0 = some xs.headI) ∧
    (pyContains response "items" = some false →
      extract_live_name (some response) = none) := by
  have hpf : presence_from response = .ok true := by
    have h := hprobe
    simp only [is_present] at h
    by_cases hc : (module.run_command (probe_cmd module t n ns)).rc = some 0
    · rw [if_pos hc] at h
      cases hd : module.decode (module.run_command (probe_cmd module t n ns)).out with
      | error u => rw [hd] at h; simp at h
      | ok resp0 =>
        rw [hd] at h
        simp only [] at h
        cases hq : presence_from resp0 with
        | error e => rw [hq] at h; simp at h
        | ok b =>
          rw [hq] at h
          simp only [] at h
          have hb : b = true ∧ resp0 = response := by
            constructor
            · cases hh : b
              · rw [hh] at h; simp at h
              · rfl
            · injection h with h2
              injection h2 with _ h3
              injection h3 with h4
          rw [← hb.2, hq, hb.1]
    · rw [if_neg hc] at h
      simp at h
  constructor
  · intro xs hxs
    cases response with
    | null => simp [pyIndexStr] at hxs
    | bool b => simp [pyIndexStr] at hxs
    | num v => simp [pyIndexStr] at hxs
    | str s => simp [pyIndexStr] at hxs
    | arr ys => simp [pyIndexStr] at hxs
    | obj fields =>
      cases hff : fields.find? (fun kv => kv.1 == "items") with
      | none => simp [pyIndexStr, hff] at hxs
      | some kv =>
        have hkv : kv.2 = Json.arr xs := by simpa [pyIndexStr, hff] using hxs
        have hany := find_some_any hff
        simp [presence_from, pyLen, pyContains, hany, pyIndexStr, hff, hkv] at hpf
        constructor
        · intro hnil
          rw [hnil] at hpf
          simp at hpf
        · cases xs with
          | nil => simp at hpf
          | cons y ys => rfl
  · intro hcont
    cases response with
    | null => simp [pyContains] at hcont
    | bool b => simp [pyContains] at hcont
    | num v => simp [pyContains] at hcont
    | str s => simp [extract_live_name, pyIndexStr]
    | arr ys => simp [extract_live_name, pyIndexStr]
    | obj fields =>
      have hany : fields.any (fun kv => kv.1 == "items") = false := by
        simpa [pyContains] using hcont
      have hnotany : ¬ (fields.any (fun kv => kv.1 == "items") = true) := by
        rw [hany]; simp
      have hff : fields.find? (fun kv => kv.1 == "items") = none := by
        rw [List.find?_eq_none]
        intro x hx hpx
        exact hnotany (List.any_eq_true.mpr ⟨x, hx, hpx⟩)
      simp [extract_live_name, pyIndexStr, hff]

/-- Witness for C10 at a present rc payload with one item: the index-0
access yields that item. -/
theorem present_items_nonempty_witness :
    pyIndexNat (Json.arr [Json.obj []]) 0 = some (Json.obj []) :=
  ((present_items_nonempty c4b_module "rc" "my-app" "default"
      (Json.obj [("items", Json.arr [Json.obj []])]) rfl).1
    [Json.obj []] rfl).2

end KubeResource
